import Mathlib

/-!
Verification of the Odyssey-Management utilities.

Shallow embedding of `src/utilities/create_qr_code.py` and
`src/utilities/email_utilities/smtp_client.py`, with theorems checking the
natural-language specification against the code.

Conventions of the embedding:
* Python `str` becomes `String`; `int` becomes `Nat`/`Int`; `float` config
  fractions (`logo_scale`, `border_frac`) become `ℚ` (the defaults 0.25 and
  0.03 are exact rationals, and the code only multiplies and truncates them).
* Python exceptions become `Except String α`: a raised exception is
  `Except.error` with the message, a normal return is `Except.ok`.
* Clock reads (`pendulum.now(...)`) become explicit inputs: the local wall
  time is a `LocalTime` argument, the UTC ISO timestamp a `String` argument.
* The filesystem becomes an explicit predicate `String → Bool` (existence),
  and PIL images become a symbolic operation trace (`ImageData`) whose
  width/height are computed exactly as PIL computes them.
-/

namespace Odyssey

/-- Python `s.rstrip("/")`: drop every trailing `'/'` character. -/
def pyRstripSlash (s : String) : String :=
  String.mk ((s.data.reverse.dropWhile (fun c => c == '/')).reverse)

/-- Python `int(q)` on a rational: truncation toward zero. -/
def pyInt (q : ℚ) : Int :=
  if 0 ≤ q then Int.floor q else Int.ceil q

/-- UTF-8 encoding of one character, as the list of its byte values
(0–255).  Standard UTF-8: 1 byte below 0x80, 2 below 0x800, 3 below
0x10000, else 4. -/
def utf8Bytes (c : Char) : List Nat :=
  let n := c.toNat
  if n < 0x80 then [n]
  else if n < 0x800 then
    [0xC0 + n / 64, 0x80 + n % 64]
  else if n < 0x10000 then
    [0xE0 + n / 4096, 0x80 + (n / 64) % 64, 0x80 + n % 64]
  else
    [0xF0 + n / 262144, 0x80 + (n / 4096) % 64, 0x80 + (n / 64) % 64,
      0x80 + n % 64]

/-- UTF-8 bytes of a whole string. -/
def strBytes (s : String) : List Nat :=
  s.data.flatMap utf8Bytes

/-- One uppercase hexadecimal digit. -/
def hexDigit (n : Nat) : Char :=
  if n < 10 then Char.ofNat (48 + n) else Char.ofNat (55 + n)

/-- Escape of one byte as `%XX`, uppercase hex, as Python `quote` emits. -/
def pctEscape (b : Nat) : String :=
  String.mk ['%', hexDigit (b / 16 % 16), hexDigit (b % 16)]

/-- Is this byte one of Python `urllib.parse`'s always-safe characters
(letters, digits, `_ . - ~`)? -/
def isUrlSafeByte (b : Nat) : Bool :=
  (48 ≤ b && b ≤ 57) || (65 ≤ b && b ≤ 90) || (97 ≤ b && b ≤ 122) ||
    b = 95 || b = 46 || b = 45 || b = 126

/-- Python `urllib.parse.quote_plus`: UTF-8-encode, keep safe bytes,
turn space into `+`, percent-escape everything else. -/
def quote_plus (s : String) : String :=
  String.join ((strBytes s).map (fun b =>
    if b = 32 then "+"
    else if isUrlSafeByte b then String.mk [Char.ofNat b]
    else pctEscape b))

/-- Python `urllib.parse.urlencode` on an ordered association list, with
its default `quote_via=quote_plus`. -/
def urlencode (kvs : List (String × String)) : String :=
  String.intercalate "&"
    (kvs.map (fun kv => quote_plus kv.1 ++ "=" ++ quote_plus kv.2))

/-! Part 1, `create_qr_code.py`: configuration. -/

/-- Embedding of the frozen dataclass `QRCodeConfig`
(`src/utilities/create_qr_code.py`, lines 25–47).  The Python `float`
fields `logo_scale` and `border_frac` are embedded as rationals. -/
structure QRCodeConfig where
  base_url : String
  secret_key : String
  logo_path : String := "src/static/Odyssey_Logo.png"
  qr_size : Nat := 800
  logo_scale : ℚ := 1/4
  border_frac : ℚ := 3/100
  corner_radius : Nat := 18
  sign_salt : String := "attendance-token"
  timezone : String := "America/Toronto"
deriving Repr, DecidableEq

/-- Embedding of `QRCodeConfig.__post_init__`: constructing the dataclass raises
`RuntimeError` when `base_url` or `secret_key` is falsy (the empty
string); otherwise the frozen instance is the result.  A raised error
means no `QRCodeConfig` value exists, so no generator (and no generation
logic) can run on it. -/
def QRCodeConfig.post_init (c : QRCodeConfig) : Except String QRCodeConfig :=
  if c.base_url = "" then
    Except.error "QRCodeConfig: base_url must be provided."
  else if c.secret_key = "" then
    Except.error "QRCodeConfig: secret_key must be provided."
  else
    Except.ok c

/-- Embedding of `QRCodeConfig.base_url_norm`: the base URL with every trailing slash
stripped (`self.base_url.rstrip("/")`). -/
def QRCodeConfig.base_url_norm (c : QRCodeConfig) : String :=
  pyRstripSlash c.base_url

/-! Part 2, `create_qr_code.py`: signing.

The signer is the external library `itsdangerous.URLSafeSerializer`,
constructed once per generator from `(secret_key, sign_salt)`.  We embed
it at its interface: `dumps` is a pure function of the secret, the salt
and the serialized payload, producing `base64url(payload) ++ "." ++
base64url(mac)`.  The keyed MAC (HMAC-SHA1 with key derivation in the
library) is modelled by a concrete deterministic mixing fold over the
bytes of salt, secret and payload; every claim below uses only that the
token is a deterministic function of `(secret, salt, payload)` and is
otherwise opaque. -/

/-- The base64url alphabet (RFC 4648 §5), indexed 0–63. -/
def b64urlChar (n : Nat) : Char :=
  if n < 26 then Char.ofNat (65 + n)
  else if n < 52 then Char.ofNat (97 + (n - 26))
  else if n < 62 then Char.ofNat (48 + (n - 52))
  else if n = 62 then '-'
  else '_'

/-- base64url-encode a byte list, unpadded (itsdangerous strips the
trailing `=` padding from its tokens). -/
def b64urlEncode : List Nat → String
  | [] => ""
  | [a] =>
      String.mk [b64urlChar (a / 4 % 64), b64urlChar (a % 4 * 16)]
  | [a, b] =>
      String.mk [b64urlChar (a / 4 % 64), b64urlChar (a % 4 * 16 + b / 16 % 16),
        b64urlChar (b % 16 * 4)]
  | a :: b :: c :: rest =>
      String.mk [b64urlChar (a / 4 % 64), b64urlChar (a % 4 * 16 + b / 16 % 16),
        b64urlChar (b % 16 * 4 + c / 64 % 4), b64urlChar (c % 64)]
        ++ b64urlEncode rest

/-- Deterministic stand-in for the library's keyed MAC: a mixing fold
over the bytes of `salt ++ secret ++ payload`, reduced to four bytes.
Only its determinism and its dependence on exactly these inputs matter
to the claims. -/
def macModel (secret salt payload : String) : List Nat :=
  let h := (strBytes salt ++ strBytes secret ++ strBytes payload).foldl
    (fun acc b => (acc * 31 + b + 7) % 4294967296) 5381
  [h / 16777216 % 256, h / 65536 % 256, h / 256 % 256, h % 256]

/-- Embedding of `itsdangerous.URLSafeSerializer(secret, salt=salt).dumps`:
URL-safe token `base64url(payload) ++ "." ++ base64url(mac)`. -/
def URLSafeSerializer.dumps (secret salt payload : String) : String :=
  b64urlEncode (strBytes payload) ++ "." ++ b64urlEncode (macModel secret salt payload)

/-- Minimal JSON string quoting (escape backslash and double quote), as
used by the compact-JSON payload serialization. -/
def jsonStr (s : String) : String :=
  "\"" ++ String.join (s.data.map (fun c =>
    if c = '\\' then "\\\\"
    else if c = '"' then "\\\""
    else String.mk [c])) ++ "\""

/-- The signed payload `{"event_id": ..., "issued_at_utc": ...}` in the
library's compact JSON form, insertion order preserved. -/
def payloadJson (event_id issued_at_utc : String) : String :=
  "\x7b" ++ jsonStr "event_id" ++ ":" ++ jsonStr event_id ++ ","
    ++ jsonStr "issued_at_utc" ++ ":" ++ jsonStr issued_at_utc ++ "\x7d"

/-- The signature produced inside `_build_signed_url`:
`self._serializer.dumps(payload)`, where the serializer was built in
`QRCodeGenerator.__init__` from `(secret_key, sign_salt)`. -/
def signatureOf (c : QRCodeConfig) (event_id issued_at_utc : String) : String :=
  URLSafeSerializer.dumps c.secret_key c.sign_salt (payloadJson event_id issued_at_utc)

/-- Embedding of `QRCodeGenerator._build_signed_url` (lines 88–97).  The clock read
`pendulum.now("UTC").to_iso8601_string()` is the explicit input
`issued_at_utc`.  Returns `(url, payload)`. -/
def build_signed_url (c : QRCodeConfig) (event_id issued_at_utc : String) :
    String × (String × String) :=
  let sig := signatureOf c event_id issued_at_utc
  let query := urlencode [("event", event_id), ("sig", sig)]
  (c.base_url_norm ++ "/?" ++ query, (event_id, issued_at_utc))

/-! Part 3, `create_qr_code.py`: event ids. -/

/-- A wall-clock reading in the configured timezone (what
`pendulum.now(self._cfg.timezone)` returns), reduced to the calendar
fields; the format string `"YYYYMMDD-HHmm"` consumes everything but the
seconds. -/
structure LocalTime where
  year : Nat
  month : Nat
  day : Nat
  hour : Nat
  minute : Nat
  second : Nat
deriving Repr, DecidableEq

/-- Zero-pad the decimal representation of `n` to `w` digits. -/
def padNum (w n : Nat) : String :=
  let s := toString n
  String.mk (List.replicate (w - s.length) '0') ++ s

/-- Embedding of `QRCodeGenerator._new_event_id` (lines 84–86): the current local
time in the configured timezone, formatted `YYYYMMDD-HHmm`.  The clock
read is the explicit input `t`. -/
def new_event_id (t : LocalTime) : String :=
  padNum 4 t.year ++ padNum 2 t.month ++ padNum 2 t.day ++ "-"
    ++ padNum 2 t.hour ++ padNum 2 t.minute

/-! Part 4, `create_qr_code.py`: the image pipeline.

PIL images are embedded as a symbolic trace of the operations the
pipeline applies (`ImageData`), together with the exact width/height
semantics of each operation.  Pixel content under resampling is not
re-implemented: two equal traces denote pixel-identical images under any
interpretation of the primitives, which is what the claims about pixel
identity and about dimensions need. -/

/-- Embedding of `round_aspect` inside `PIL.Image.thumbnail`: of floor and ceiling of
`number`, the one with the smaller key (floor on ties), clamped to at
least 1. -/
def round_aspect (number : ℚ) (key : Int → ℚ) : Nat :=
  let f := Int.floor number
  let c := Int.ceil number
  (max (if key f ≤ key c then f else c) 1).toNat

/-- Dimension semantics of `PIL.Image.thumbnail((maxW, maxH))` on a
`w × h` image: no-op when already within bounds, otherwise shrink
preserving aspect ratio with PIL's rounding.  Python's float aspect
arithmetic is carried out exactly in `ℚ`. -/
def thumbnailDims (w h maxW maxH : Nat) : Nat × Nat :=
  if maxW ≥ w ∧ maxH ≥ h then (w, h)
  else
    let aspect : ℚ := (w : ℚ) / (h : ℚ)
    if (maxW : ℚ) / (maxH : ℚ) ≥ aspect then
      (round_aspect ((maxH : ℚ) * aspect)
        (fun n => |aspect - (n : ℚ) / (maxH : ℚ)|), maxH)
    else
      (maxW, round_aspect ((maxW : ℚ) / aspect)
        (fun n => if n ≠ 0 then |aspect - (maxW : ℚ) / (n : ℚ)| else 0))

/-- Symbolic trace of the PIL operations used by the pipeline.
`openFile` carries the opened file's intrinsic dimensions (an input of
the run); `qrMake` is the rendered QR module image, which the pipeline
resizes before ever reading its size. -/
inductive ImageData where
  | qrMake (url : String)
  | resize (src : ImageData) (w h : Nat)
  | openFile (path : String) (w h : Nat)
  | thumbnail (src : ImageData) (maxW maxH : Nat)
  | roundCorners (src : ImageData) (radius : Nat)
  | roundedRect (w h radius : Nat)
  | composite (base overlay : ImageData) (x y : Int)
deriving Repr, DecidableEq

/-- Width and height of a traced image, following PIL: `resize` sets the
size, `thumbnail` shrinks per `thumbnailDims`, `putalpha`-based corner
rounding keeps the size, and `alpha_composite` into a destination keeps
the base image's size. -/
def ImageData.dims : ImageData → Nat × Nat
  | qrMake _ => (0, 0)
  | resize _ w h => (w, h)
  | openFile _ w h => (w, h)
  | thumbnail s mw mh => thumbnailDims (dims s).1 (dims s).2 mw mh
  | roundCorners s _ => dims s
  | roundedRect w h _ => (w, h)
  | composite b _ _ _ => dims b

/-- Python `img.width`. -/
def ImageData.width (i : ImageData) : Nat := i.dims.1

/-- Python `img.height`. -/
def ImageData.height (i : ImageData) : Nat := i.dims.2

/-- The image built by `generate_qr_code_with_image` (lines 103–138)
from an already-built URL: render the QR, resize to
`qr_size × qr_size`, and, when a file exists at the logo path, shrink
the logo, round its corners, and composite the white backing plate and
the logo onto the centre.  `logoExists` is `self._cfg.logo_path.exists()`;
`logoW × logoH` is the size of the image the `Image.open` call loads. -/
def generate_image (c : QRCodeConfig) (url : String) (logoExists : Bool)
    (logoW logoH : Nat) : ImageData :=
  let qr_img := ImageData.resize (ImageData.qrMake url) c.qr_size c.qr_size
  if logoExists then
    let logo := ImageData.openFile c.logo_path logoW logoH
    let max_w := (pyInt ((c.qr_size : ℚ) * c.logo_scale)).toNat
    let max_h := (pyInt ((c.qr_size : ℚ) * c.logo_scale)).toNat
    let logo := ImageData.thumbnail logo max_w max_h
    -- Python `max(2, int(logo.width * border_frac))`; taking `toNat`
    -- before `max 2` agrees with it for every integer value.
    let border_px := max 2 (pyInt ((logo.width : ℚ) * c.border_frac)).toNat
    let bordered_size := (logo.width + 2 * border_px, logo.height + 2 * border_px)
    let border_bg := ImageData.roundedRect bordered_size.1 bordered_size.2 c.corner_radius
    let logo := ImageData.roundCorners logo c.corner_radius
    let bx : Int := Int.fdiv ((qr_img.width : Int) - (border_bg.width : Int)) 2
    let byv : Int := Int.fdiv ((qr_img.height : Int) - (border_bg.height : Int)) 2
    let qr_img := ImageData.composite qr_img border_bg bx byv
    let lx := bx + (border_px : Int)
    let ly := byv + (border_px : Int)
    ImageData.composite qr_img logo lx ly
  else
    qr_img

/-- Embedding of `QRCodeGenerator.generate_qr_code_with_image` (lines 99–147): the
two clock reads become the inputs `t` (local) and `issued_at_utc`;
the returned pair is the output filename `QR_<event_id>.png` the image
is saved to, together with the saved image. -/
def generate_qr_code_with_image (c : QRCodeConfig) (t : LocalTime)
    (issued_at_utc : String) (logoExists : Bool) (logoW logoH : Nat) :
    String × ImageData :=
  let event_id := new_event_id t
  let url := (build_signed_url c event_id issued_at_utc).1
  let img := generate_image c url logoExists logoW logoH
  ("QR_" ++ event_id ++ ".png", img)

/-! Part 5, `email_utilities/smtp_client.py`.

The SMTP network layer is external: its behaviour during one
`send_email` call is the input `SMTPOutcome` — either the
connect/login/send block returns normally, or it raises one of the
exception classes the code catches.  The process environment is the
input `env : String → Option String`, and the filesystem (for
attachments) the predicate `fs : String → Bool`. -/

/-- The `EmailMessage` frozen dataclass (lines 30–37). -/
structure EmailMessage where
  destination_email_address : String
  subject : String
  plain_text_body : String
  html_body : String
  attachments : List String
deriving Repr, DecidableEq

/-- The `SMTPConfig` frozen dataclass (lines 54–60).  The credential
fields hold what `os.getenv(name, "")` returned; Python's `str`-or-`None`
is `Option String`, so that the code's `is None` tests translate
directly. -/
structure SMTPConfig where
  sender_email_address : Option String
  google_smtp_app_passwd : Option String
  smtp_server : String := "smtp.gmail.com"
  smtp_port : String := "465"
  security_contract : String := "SSL"
deriving Repr, DecidableEq

/-- Python `os.getenv(name, "")`: the variable's value when set, otherwise the
empty-string default; in either case the result is a `str`, never
`None`. -/
def pyGetenvD (env : String → Option String) (name dflt : String) : Option String :=
  some ((env name).getD dflt)

/-- Embedding of `SMTPClient._check_env_vars` (lines 84–89): raise `ValueError` when a
credential field `is None`.  On `Option String` fields this is exactly
`Option.isNone`. -/
def check_env_vars (cfg : SMTPConfig) : Except String Unit :=
  if cfg.sender_email_address.isNone then
    Except.error "SMTPClient: Could Not Find sender_email_address"
  else if cfg.google_smtp_app_passwd.isNone then
    Except.error "SMTPClient: Could Not find Google SMTP Server Passwd"
  else
    Except.ok ()

/-- Embedding of `SMTPClient.__init__` (lines 77–82): read the two environment
variables with empty-string defaults into an `SMTPConfig`, then run
`_check_env_vars`; the constructed client is the config. -/
def SMTPClient.mk (env : String → Option String) : Except String SMTPConfig :=
  let cfg : SMTPConfig :=
    { sender_email_address := pyGetenvD env "ODYSSEY_EMAIL_ADDRESS" ""
      google_smtp_app_passwd := pyGetenvD env "GOOGLE_SMTP_APP_PASS" "" }
  match check_env_vars cfg with
  | Except.error e => Except.error e
  | Except.ok _ => Except.ok cfg

/-- The MIME message `_build_email_message` assembles, reduced to the
fields the claims observe (headers, the two alternative bodies, and the
names of the attached files; part encodings are not modelled). -/
structure MIMEMessage where
  subject : String
  fromAddr : Option String
  toAddr : String
  plain : String
  html : String
  attached : List String
deriving Repr, DecidableEq

/-- The inner `_add_attachments` loop (lines 102–131): attach each file
in order, raising `FileNotFoundError` at the first path that does not
exist on `fs`. -/
def add_attachments (fs : String → Bool) (msg : MIMEMessage) :
    List String → Except String MIMEMessage
  | [] => Except.ok msg
  | f :: rest =>
      if fs f then
        add_attachments fs { msg with attached := msg.attached ++ [f] } rest
      else
        Except.error ("Could not find file: " ++ f)

/-- Embedding of `SMTPClient._build_email_message` (lines 91–155): validate the three
required fields in the code's order (plain text, then HTML, then
subject), raising `RuntimeError` on the first empty one; then assemble
the multipart message and add the attachments. -/
def build_email_message (cfg : SMTPConfig) (fs : String → Bool)
    (ec : EmailMessage) : Except String MIMEMessage :=
  if ec.plain_text_body = "" then
    Except.error "Must Specify a plain text alternative to Email Contents"
  else if ec.html_body = "" then
    Except.error "Must Specify a HTML body to Email Contents"
  else if ec.subject = "" then
    Except.error "Must Specify subject in Email Contents"
  else
    add_attachments fs
      { subject := ec.subject
        fromAddr := cfg.sender_email_address
        toAddr := ec.destination_email_address
        plain := ec.plain_text_body
        html := ec.html_body
        attached := [] }
      ec.attachments

/-- What the SMTP connect/login/send block inside the `try` does on this
run: return normally, or raise one of the exception classes
`send_email` catches (each carrying its message text). -/
inductive SMTPOutcome where
  | ok
  | connectError (msg : String)
  | authError (msg : String)
  | senderRefused (msg : String)
  | smtpError (msg : String)
  | otherError (msg : String)
deriving Repr, DecidableEq

/-- Embedding of `SMTPClient.send_email` (lines 158–194).  The message is built
before the `try` block, so validation and attachment errors propagate
(`Except.error`); every exception the `try` catches is logged (the
`print` line, returned as the log list) and converted to `false`; a
normal send returns `true` with no log.  (The guard
`if not email_contents` can never fire: a dataclass instance is always
truthy, so it is not represented.) -/
def send_email (cfg : SMTPConfig) (fs : String → Bool)
    (outcome : SMTPOutcome) (ec : EmailMessage) :
    Except String (Bool × List String) :=
  match build_email_message cfg fs ec with
  | Except.error e => Except.error e
  | Except.ok _email =>
      match outcome with
      | SMTPOutcome.ok => Except.ok (true, [])
      | SMTPOutcome.connectError m =>
          Except.ok (false, ["Error Connecting to server. " ++ m])
      | SMTPOutcome.authError m =>
          Except.ok (false, ["Error with Server Auth. " ++ m])
      | SMTPOutcome.senderRefused m =>
          Except.ok (false, ["Sender Email Address Refused to comply. " ++ m])
      | SMTPOutcome.smtpError m =>
          Except.ok (false, ["Error with SMTP Operation. " ++ m])
      | SMTPOutcome.otherError m =>
          Except.ok (false, ["Exception raised in SMTPClient.send_email() instance. " ++ m])

/-! Part 6: the theorems for the claims. -/

/-- C1: signing is deterministic — two runs of the signing step with
identical `event_id`, `issued_at_utc`, `secret_key` and `sign_salt`
produce an identical signature string, and when the base URL also
agrees, `_build_signed_url` returns the same URL. -/
theorem signing_deterministic (c1 c2 : QRCodeConfig)
    (event_id issued_at_utc : String)
    (hsec : c1.secret_key = c2.secret_key)
    (hsalt : c1.sign_salt = c2.sign_salt) :
    signatureOf c1 event_id issued_at_utc = signatureOf c2 event_id issued_at_utc
      ∧ (c1.base_url = c2.base_url →
          (build_signed_url c1 event_id issued_at_utc).1
            = (build_signed_url c2 event_id issued_at_utc).1) := by
  constructor
  · simp only [signatureOf, hsec, hsalt]
  · intro hb
    simp only [build_signed_url, signatureOf, QRCodeConfig.base_url_norm,
      hsec, hsalt, hb]

/-- Witness for C1 at two concrete configurations that agree on
`secret_key`, `sign_salt` and `base_url` but differ in every other
field. -/
theorem signing_deterministic_witness :
    ({ base_url := "https://odyssey.example/", secret_key := "k1" } :
        QRCodeConfig).secret_key
      = ({ base_url := "https://odyssey.example/", secret_key := "k1",
            logo_path := "elsewhere.png", qr_size := 400, corner_radius := 9 } :
          QRCodeConfig).secret_key
    ∧ (signatureOf { base_url := "https://odyssey.example/", secret_key := "k1" }
          "20261012-0905" "2026-10-12T13:05:00+00:00"
        = signatureOf
            { base_url := "https://odyssey.example/", secret_key := "k1",
              logo_path := "elsewhere.png", qr_size := 400, corner_radius := 9 }
            "20261012-0905" "2026-10-12T13:05:00+00:00"
      ∧ (({ base_url := "https://odyssey.example/", secret_key := "k1" } :
              QRCodeConfig).base_url
            = ({ base_url := "https://odyssey.example/", secret_key := "k1",
                  logo_path := "elsewhere.png", qr_size := 400, corner_radius := 9 } :
                QRCodeConfig).base_url →
          (build_signed_url { base_url := "https://odyssey.example/", secret_key := "k1" }
              "20261012-0905" "2026-10-12T13:05:00+00:00").1
            = (build_signed_url
                { base_url := "https://odyssey.example/", secret_key := "k1",
                  logo_path := "elsewhere.png", qr_size := 400, corner_radius := 9 }
                "20261012-0905" "2026-10-12T13:05:00+00:00").1)) :=
  ⟨rfl, signing_deterministic _ _ "20261012-0905" "2026-10-12T13:05:00+00:00" rfl rfl⟩

/-- C2: the URL built by `_build_signed_url` is the normalized base URL
(trailing slashes stripped), then `/?`, then the query string
`event=<event_id>&sig=<signature>` with both parameter values
percent-encoded (`quote_plus`). -/
theorem build_signed_url_shape (c : QRCodeConfig) (event_id issued_at_utc : String) :
    (build_signed_url c event_id issued_at_utc).1
      = pyRstripSlash c.base_url ++ "/?"
          ++ ("event=" ++ quote_plus event_id ++ "&sig="
                ++ quote_plus (signatureOf c event_id issued_at_utc)) := by
  have hq : ∀ v w : String, urlencode [("event", v), ("sig", w)]
      = "event=" ++ quote_plus v ++ "&sig=" ++ quote_plus w := by
    intro v w
    show quote_plus "event" ++ "=" ++ quote_plus v ++ "&"
        ++ (quote_plus "sig" ++ "=" ++ quote_plus w)
      = "event=" ++ quote_plus v ++ "&sig=" ++ quote_plus w
    have he : quote_plus "event" = "event" := by decide
    have hs : quote_plus "sig" = "sig" := by decide
    rw [he, hs]
    simp only [String.append_assoc]
    rfl
  simp only [build_signed_url, QRCodeConfig.base_url_norm, hq]

/-- C3: constructing a `QRCodeConfig` raises a configuration error
exactly when `base_url` or `secret_key` is the empty string, and when
both are non-empty the construction succeeds with the instance itself —
so on the error side no configured value (and hence no generation
logic) ever comes into being. -/
theorem qrcodeconfig_validation (c : QRCodeConfig) :
    ((∃ e, c.post_init = Except.error e) ↔ (c.base_url = "" ∨ c.secret_key = ""))
      ∧ (c.post_init = Except.ok c ↔ (¬c.base_url = "" ∧ ¬c.secret_key = "")) := by
  unfold QRCodeConfig.post_init
  by_cases h1 : c.base_url = "" <;> by_cases h2 : c.secret_key = "" <;>
    simp [h1, h2]

/-- C4: `_new_event_id` formats the local clock reading as
`YYYYMMDD-HHmm`, so two generations whose clock reads fall in the same
local minute (equal year, month, day, hour and minute fields) produce
the same `event_id` and are written to the same output filename
`QR_<event_id>.png`. -/
theorem same_minute_same_event_id (t1 t2 : LocalTime)
    (hy : t1.year = t2.year) (hmo : t1.month = t2.month)
    (hd : t1.day = t2.day) (hh : t1.hour = t2.hour)
    (hmi : t1.minute = t2.minute) :
    new_event_id t1 = new_event_id t2
      ∧ ∀ (c : QRCodeConfig) (issued : String) (le : Bool) (lw lh : Nat),
          (generate_qr_code_with_image c t1 issued le lw lh).1
              = (generate_qr_code_with_image c t2 issued le lw lh).1
            ∧ (generate_qr_code_with_image c t1 issued le lw lh).1
              = "QR_" ++ new_event_id t1 ++ ".png" := by
  have hid : new_event_id t1 = new_event_id t2 := by
    unfold new_event_id
    rw [hy, hmo, hd, hh, hmi]
  refine ⟨hid, fun c issued le lw lh => ⟨?_, rfl⟩⟩
  simp only [generate_qr_code_with_image, hid]

/-- Witness for C4: two distinct clock reads in the same local minute
(they differ in the seconds field) give the same event id and the same
output filename. -/
theorem same_minute_same_event_id_witness :
    (⟨2026, 10, 12, 9, 5, 3⟩ : LocalTime).year = (⟨2026, 10, 12, 9, 5, 58⟩ : LocalTime).year
      ∧ (⟨2026, 10, 12, 9, 5, 3⟩ : LocalTime) ≠ (⟨2026, 10, 12, 9, 5, 58⟩ : LocalTime)
      ∧ (new_event_id ⟨2026, 10, 12, 9, 5, 3⟩ = new_event_id ⟨2026, 10, 12, 9, 5, 58⟩
          ∧ ∀ (c : QRCodeConfig) (issued : String) (le : Bool) (lw lh : Nat),
              (generate_qr_code_with_image c ⟨2026, 10, 12, 9, 5, 3⟩ issued le lw lh).1
                  = (generate_qr_code_with_image c ⟨2026, 10, 12, 9, 5, 58⟩ issued le lw lh).1
                ∧ (generate_qr_code_with_image c ⟨2026, 10, 12, 9, 5, 3⟩ issued le lw lh).1
                  = "QR_" ++ new_event_id ⟨2026, 10, 12, 9, 5, 3⟩ ++ ".png") :=
  ⟨rfl, by decide,
    same_minute_same_event_id ⟨2026, 10, 12, 9, 5, 3⟩ ⟨2026, 10, 12, 9, 5, 58⟩
      rfl rfl rfl rfl rfl⟩

/-- C5: the saved image is exactly `qr_size × qr_size` pixels, whether
or not a logo file exists at the configured path — the compositing
steps never change the image dimensions. -/
theorem generated_image_size (c : QRCodeConfig) (t : LocalTime)
    (issued : String) (logoExists : Bool) (lw lh : Nat) :
    ((generate_qr_code_with_image c t issued logoExists lw lh).2).width = c.qr_size
      ∧ ((generate_qr_code_with_image c t issued logoExists lw lh).2).height
          = c.qr_size := by
  cases logoExists <;>
    simp [generate_qr_code_with_image, generate_image,
      ImageData.width, ImageData.height, ImageData.dims]

/-- The plain, logo-less run of the spec's comparison: render the QR
for the URL and resize it to `qr_size × qr_size`, with no compositing
step at all. -/
def plainQrImage (c : QRCodeConfig) (url : String) : ImageData :=
  ImageData.resize (ImageData.qrMake url) c.qr_size c.qr_size

/-- C6: when no file exists at the logo path, the compositing branch is
skipped entirely — the run does not raise, never opens the logo file
(the result does not depend on the logo dimensions at all), and the
image is identical to a plain logo-less run with the same URL. -/
theorem missing_logo_skipped (c : QRCodeConfig) (t : LocalTime)
    (issued : String) (lw lh lw' lh' : Nat) :
    (generate_qr_code_with_image c t issued false lw lh).2
        = plainQrImage c ((build_signed_url c (new_event_id t) issued).1)
      ∧ (generate_qr_code_with_image c t issued false lw lh).2
          = (generate_qr_code_with_image c t issued false lw' lh').2 :=
  ⟨rfl, rfl⟩

/-- C7: in the compositing branch, the white backing plate's border
margin is `max 2 ⌊border_frac · (shrunk logo width)⌋`, the plate is the
shrunk logo enlarged by that margin on every side and centred on the QR
image (floor-divided centring offsets), and the corner-rounded logo is
composited on top of the plate offset inward by exactly the border
margin. -/
theorem logo_plate_geometry (c : QRCodeConfig) (url : String) (lw lh : Nat) :
    generate_image c url true lw lh
      = (let maxSide := (pyInt ((c.qr_size : ℚ) * c.logo_scale)).toNat
         let shrunk := thumbnailDims lw lh maxSide maxSide
         let border := max 2 (pyInt ((shrunk.1 : ℚ) * c.border_frac)).toNat
         let plateW := shrunk.1 + 2 * border
         let plateH := shrunk.2 + 2 * border
         let cx : Int := Int.fdiv ((c.qr_size : Int) - (plateW : Int)) 2
         let cy : Int := Int.fdiv ((c.qr_size : Int) - (plateH : Int)) 2
         ImageData.composite
           (ImageData.composite (plainQrImage c url)
             (ImageData.roundedRect plateW plateH c.corner_radius) cx cy)
           (ImageData.roundCorners
             (ImageData.thumbnail (ImageData.openFile c.logo_path lw lh) maxSide maxSide)
             c.corner_radius)
           (cx + (border : Int)) (cy + (border : Int))) :=
  rfl

/-- Helper: when every attachment path exists, `_add_attachments`
returns normally. -/
theorem add_attachments_ok (fs : String → Bool) :
    ∀ (files : List String) (msg : MIMEMessage),
      (∀ a ∈ files, fs a = true) →
      ∃ m, add_attachments fs msg files = Except.ok m := by
  intro files
  induction files with
  | nil => intro msg _; exact ⟨msg, rfl⟩
  | cons f rest ih =>
      intro msg h
      have hf : fs f = true := h f (List.mem_cons_self f rest)
      have ⟨m, hm⟩ := ih { msg with attached := msg.attached ++ [f] }
        (fun a ha => h a (List.mem_cons_of_mem f ha))
      exact ⟨m, by simp [add_attachments, hf, hm]⟩

/-- C8: a message with an empty subject, empty plain-text body or empty
HTML body makes `send_email` raise before the SMTP step — the result is
an uncaught error (never a boolean), and it is the same whatever the
SMTP layer would have done, i.e. no connection outcome is ever
consulted. -/
theorem send_email_missing_fields (cfg : SMTPConfig) (ec : EmailMessage)
    (fs : String → Bool) (o1 o2 : SMTPOutcome)
    (h : ec.subject = "" ∨ ec.plain_text_body = "" ∨ ec.html_body = "") :
    (∃ e, send_email cfg fs o1 ec = Except.error e)
      ∧ send_email cfg fs o1 ec = send_email cfg fs o2 ec := by
  unfold send_email build_email_message
  by_cases hp : ec.plain_text_body = ""
  · simp [hp]
  · by_cases hh : ec.html_body = ""
    · simp [hp, hh]
    · have hs : ec.subject = "" := by tauto
      simp [hp, hh, hs]

/-- A concrete credential configuration, used only to instantiate the
send theorems. -/
def sampleSMTPConfig : SMTPConfig :=
  { sender_email_address := some "odyssey@example.org"
    google_smtp_app_passwd := some "pw" }

/-- A concrete message whose HTML body is missing. -/
def msgMissingHtml : EmailMessage :=
  { destination_email_address := "member@example.org"
    subject := "Hi"
    plain_text_body := "hello"
    html_body := ""
    attachments := [] }

/-- Witness for C8: a concrete message missing its HTML body is
rejected identically under a successful SMTP layer and under a failing
one. -/
theorem send_email_missing_fields_witness :
    (msgMissingHtml.subject = "" ∨ msgMissingHtml.plain_text_body = ""
        ∨ msgMissingHtml.html_body = "")
    ∧ ((∃ e, send_email sampleSMTPConfig (fun _ => true) SMTPOutcome.ok msgMissingHtml
            = Except.error e)
        ∧ send_email sampleSMTPConfig (fun _ => true) SMTPOutcome.ok msgMissingHtml
          = send_email sampleSMTPConfig (fun _ => true)
              (SMTPOutcome.connectError "refused") msgMissingHtml) :=
  ⟨Or.inr (Or.inr rfl),
    send_email_missing_fields sampleSMTPConfig msgMissingHtml (fun _ => true)
      SMTPOutcome.ok (SMTPOutcome.connectError "refused") (Or.inr (Or.inr rfl))⟩

/-- C9: once a message passes field validation (and its attachments all
exist), a normal SMTP run makes `send_email` return `true`, and every
exception the `try` block catches is converted to `false` with one log
line — so the returned boolean never distinguishes the failure causes,
only the log text does. -/
theorem send_email_catches_smtp_errors (cfg : SMTPConfig) (ec : EmailMessage)
    (fs : String → Bool)
    (hp : ¬ec.plain_text_body = "") (hh : ¬ec.html_body = "")
    (hs : ¬ec.subject = "")
    (hatt : ∀ a ∈ ec.attachments, fs a = true) :
    send_email cfg fs SMTPOutcome.ok ec = Except.ok (true, [])
      ∧ ∀ o : SMTPOutcome, o ≠ SMTPOutcome.ok →
          ∃ log, send_email cfg fs o ec = Except.ok (false, [log]) := by
  have ⟨m, hm⟩ := add_attachments_ok fs ec.attachments
    { subject := ec.subject
      fromAddr := cfg.sender_email_address
      toAddr := ec.destination_email_address
      plain := ec.plain_text_body
      html := ec.html_body
      attached := [] } hatt
  have hbuild : build_email_message cfg fs ec = Except.ok m := by
    unfold build_email_message
    simp [hp, hh, hs, hm]
  constructor
  · unfold send_email
    simp [hbuild]
  · intro o ho
    cases o with
    | ok => exact absurd rfl ho
    | connectError msg =>
        exact ⟨"Error Connecting to server. " ++ msg,
          by unfold send_email; simp [hbuild]⟩
    | authError msg =>
        exact ⟨"Error with Server Auth. " ++ msg,
          by unfold send_email; simp [hbuild]⟩
    | senderRefused msg =>
        exact ⟨"Sender Email Address Refused to comply. " ++ msg,
          by unfold send_email; simp [hbuild]⟩
    | smtpError msg =>
        exact ⟨"Error with SMTP Operation. " ++ msg,
          by unfold send_email; simp [hbuild]⟩
    | otherError msg =>
        exact ⟨"Exception raised in SMTPClient.send_email() instance. " ++ msg,
          by unfold send_email; simp [hbuild]⟩

/-- A concrete message that passes field validation and carries one
attachment. -/
def msgValid : EmailMessage :=
  { destination_email_address := "member@example.org"
    subject := "Hi"
    plain_text_body := "hello"
    html_body := "<p>hello</p>"
    attachments := ["QR_20261012-0905.png"] }

/-- Witness for C9 at a concrete valid message with one existing
attachment. -/
theorem send_email_catches_smtp_errors_witness :
    (¬msgValid.plain_text_body = "")
    ∧ (∀ a ∈ msgValid.attachments, (fun _ => true : String → Bool) a = true)
    ∧ (send_email sampleSMTPConfig (fun _ => true) SMTPOutcome.ok msgValid
        = Except.ok (true, [])
      ∧ ∀ o : SMTPOutcome, o ≠ SMTPOutcome.ok →
          ∃ log, send_email sampleSMTPConfig (fun _ => true) o msgValid
            = Except.ok (false, [log])) :=
  ⟨by decide, fun a _ => rfl,
    send_email_catches_smtp_errors sampleSMTPConfig msgValid (fun _ => true)
      (by decide) (by decide) (by decide) (fun a _ => rfl)⟩

/-- C10 (refuting the claim as the code stands): with both credential
environment variables unset, `os.getenv(..., "")` yields the empty
string, the `is None` checks in `_check_env_vars` cannot fire, and the
client is constructed successfully holding empty credentials — no
error is raised. -/
theorem smtpclient_accepts_empty_credentials :
    SMTPClient.mk (fun _ => none)
      = Except.ok { sender_email_address := some "",
                    google_smtp_app_passwd := some "" } :=
  rfl

end Odyssey
